import Mathlib

/-!
Verification of the Foreclosure-Finder core: the lead-scoring engine of
`src/scrapers/montco-courts.js` (calculateEnhancedScore, calculateScore,
and the filtering pipeline of scrapeMontgomeryCourts) and the address
parser of `src/scrapers/civilview.js` (parseAddress).

The JavaScript is embedded shallowly: JS numbers that are always integral
become `Int`/`Nat`, strings become `String`, objects become structures.
JS `String.prototype.toUpperCase` is modelled by `Char.toUpper` per
character (all needles compared against are ASCII), `includes` by a
substring scan, and each regular expression used by the source is
translated to an explicit scanning function with the same
leftmost-match/backtracking semantics on the inputs the source feeds it.
-/

namespace Foreclosure

/-! ## String utilities mirroring the JavaScript primitives -/

/-- JS whitespace test restricted to the ASCII whitespace the data contains. -/
def isSpaceChar (c : Char) : Bool :=
  c = ' ' || c = '\t' || c = '\n' || c = '\r'

/-- One step of `replace(/\s+/g, ' ')`: each whitespace run becomes one space.
The boolean records whether the previous kept character was a space. -/
def collapseAux : Bool → List Char → List Char
  | _, [] => []
  | prevSpace, c :: rest =>
    if isSpaceChar c then
      if prevSpace then collapseAux true rest else ' ' :: collapseAux true rest
    else c :: collapseAux false rest

/-- Drop leading and trailing whitespace, as JS `trim()`. -/
def jsTrimL (l : List Char) : List Char :=
  ((l.dropWhile isSpaceChar).reverse.dropWhile isSpaceChar).reverse

/-- `s.replace(/\s+/g, ' ').trim()` from the source. -/
def normSpace (l : List Char) : List Char :=
  jsTrimL (collapseAux false l)

/-- JS `toUpperCase` on the ASCII data this program handles. -/
def jsToUpper (s : String) : String :=
  ⟨s.data.map Char.toUpper⟩

/-- Does `l` start with `needle`? -/
def strStarts : List Char → List Char → Bool
  | [], _ => true
  | _ :: _, [] => false
  | a :: as, b :: bs => a = b && strStarts as bs

/-- Does `l` contain `needle` as a contiguous run? -/
def hasSubAux (needle : List Char) : List Char → Bool
  | [] => needle.isEmpty
  | l@(_ :: rest) => strStarts needle l || hasSubAux needle rest

/-- JS `s.includes(sub)`. -/
def jsIncludes (s sub : String) : Bool :=
  hasSubAux sub.data s.data

/-! ## Lead scorer data model (montco-courts.js) -/

/-- The docket summary object built by the page-extraction step and read by
`calculateEnhancedScore` (`c.docket`); an absent docket is the all-default
value, matching the `|| 0` / falsy-field reads in the source. -/
structure Docket where
  entries : Nat
  allText : String
  allTypes : String
  daysSinceLastFiling : Int
  continuanceCount : Nat
  isStayed : Bool
  hasBankruptcy : Bool
  deriving DecidableEq

def Docket.empty : Docket :=
  { entries := 0, allText := "", allTypes := "", daysSinceLastFiling := 0,
    continuanceCount := 0, isStayed := false, hasBankruptcy := false }

/-- The fields of the case object that `calculateEnhancedScore` reads.
The source also reads `c.monthsOpen` into an unused local `months`;
the field is kept for fidelity. -/
structure Case where
  daysOpen : Int
  monthsOpen : Int
  propertyAddress : String
  defendant : String
  docket : Docket
  deriving DecidableEq

/-- One `{ text, impact }` entry of the factors array. -/
structure Factor where
  text : String
  impact : Int
  deriving DecidableEq

/-- The mutable `(score, factors)` pair threaded through the scorer. -/
structure ScoreState where
  score : Int
  factors : List Factor
  deriving DecidableEq

/-- `score += d; factors.push({ text, impact: d })` (the source always pushes
the same delta it adds; zero-point bands push with `impact: 0`). -/
def addFactor (st : ScoreState) (text : String) (d : Int) : ScoreState :=
  { score := st.score + d, factors := st.factors ++ [⟨text, d⟩] }

/-- An `if (cond) { score += d; factors.push(...) }` statement. -/
def condAdd (b : Bool) (text : String) (d : Int) (st : ScoreState) : ScoreState :=
  if b then addFactor st text d else st

/-- `(docket.allText || '').toUpperCase()`. -/
def docketTextOf (c : Case) : String := jsToUpper c.docket.allText

/-- `(docket.allTypes || '').toUpperCase()`. -/
def docketTypesOf (c : Case) : String := jsToUpper c.docket.allTypes

/-! ## Scorer blocks, in source order -/

/-- Section 1: case age bands over `days = c.daysOpen || 0`. -/
def ageBlock (c : Case) (st : ScoreState) : ScoreState :=
  let days := c.daysOpen
  if days < 120 then
    addFactor st "⏱️ Too early (<4 months) - owner likely in denial" 0
  else if 120 ≤ days ∧ days < 180 then
    addFactor st "⏱️ Early stage (4-6 months)" 5
  else if 180 ≤ days ∧ days < 270 then
    addFactor st "⏱️ Building pressure (6-9 months)" 12
  else if 270 ≤ days ∧ days ≤ 540 then
    addFactor st "🎯 SWEET SPOT (9-18 months) - maximum pressure" 25
  else if 540 < days ∧ days ≤ 720 then
    addFactor st "⏱️ Late stage (18-24 months)" 18
  else if 720 < days then
    addFactor st "⏱️ Very old case (>24 months) - may be zombie" 10
  else st

/-- Section 2: docket activity intensity over `entries = docket.entries || 0`. -/
def activityBlock (c : Case) (st : ScoreState) : ScoreState :=
  let entries := c.docket.entries
  if entries ≤ 4 then
    addFactor st ("📋 Low activity (" ++ toString entries ++ " entries)") 2
  else if 5 ≤ entries ∧ entries ≤ 8 then
    addFactor st ("📋 Moderate activity (" ++ toString entries ++ " entries)") 8
  else if 9 ≤ entries ∧ entries ≤ 14 then
    addFactor st ("📋 High activity (" ++ toString entries ++ " entries) - decision fatigue") 14
  else if 15 ≤ entries then
    addFactor st ("📋 Very high activity (" ++ toString entries ++ " entries) - exhaustion likely") 20
  else st

/-- The `for (let i = 1; i <= continuances; i++)` accumulation of section 3:
+5 for i ≤ 3, +3 for i ≤ 6, +1 beyond. -/
def continuanceLoop : Nat → Int
  | 0 => 0
  | n + 1 =>
    continuanceLoop n + (if n + 1 ≤ 3 then 5 else if n + 1 ≤ 6 then 3 else 1)

/-- Section 3: delay and continuance signals, capped at 25. -/
def continuanceBlock (c : Case) (st : ScoreState) : ScoreState :=
  let continuances := c.docket.continuanceCount
  if 0 < continuances then
    let delayPoints := min 25 (continuanceLoop continuances)
    addFactor st
      ("🔄 " ++ toString continuances ++ " continuance(s) - mounting costs & fatigue")
      delayPoints
  else st

/-- Resistance condition 1: `ANSWER` in types and `NEW MATTER` in text. -/
def answerNewMatter (c : Case) : Bool :=
  jsIncludes (docketTypesOf c) "ANSWER" && jsIncludes (docketTextOf c) "NEW MATTER"

/-- Resistance condition 2: preliminary objections in types or text. -/
def prelimObjections (c : Case) : Bool :=
  jsIncludes (docketTypesOf c) "PRELIMINARY OBJECTIONS" ||
    jsIncludes (docketTextOf c) "PRELIMINARY OBJECTIONS"

/-- Resistance condition 3: both `OBJECTION` and `OPPOSITION` in text. -/
def objectionOpposition (c : Case) : Bool :=
  jsIncludes (docketTextOf c) "OBJECTION" && jsIncludes (docketTextOf c) "OPPOSITION"

/-- Resistance condition 4: a defendant-side motion for summary judgment. -/
def defendantMSJ (c : Case) : Bool :=
  jsIncludes (docketTextOf c) "MOTION FOR SUMMARY JUDGMENT" &&
    (jsIncludes (docketTextOf c) "DEFENDANT" ||
      (jsIncludes (docketTextOf c) "BY " && !jsIncludes (docketTextOf c) "BY PLAINTIFF"))

/-- Resistance condition 5: a counterclaim in the docket text. -/
def counterclaimFiled (c : Case) : Bool :=
  jsIncludes (docketTextOf c) "COUNTERCLAIM"

/-- Resistance condition 6 (does not set `activeFighting`). -/
def replyNewMatter (c : Case) : Bool :=
  jsIncludes (docketTypesOf c) "REPLY TO NEW MATTER" ||
    jsIncludes (docketTextOf c) "REPLY TO NEW MATTER"

/-- The `activeFighting` flag: set by resistance conditions 1-5 only. -/
def activeFighting (c : Case) : Bool :=
  answerNewMatter c || prelimObjections c || objectionOpposition c ||
    defendantMSJ c || counterclaimFiled c

/-- Section 4 (negative half): active resistance deductions, in source order. -/
def resistanceBlock (c : Case) (st : ScoreState) : ScoreState :=
  condAdd (replyNewMatter c) "⚔️ Reply to New Matter - litigation ongoing" (-3)
    (condAdd (counterclaimFiled c) "⚔️ Counterclaim filed - aggressive defense" (-8)
      (condAdd (defendantMSJ c)
        "⚔️ Defendant filed Motion for Summary Judgment - believes they can win" (-10)
        (condAdd (objectionOpposition c) "⚔️ Objection/Opposition filed" (-5)
          (condAdd (prelimObjections c) "⚔️ Preliminary Objections - active resistance" (-5)
            (condAdd (answerNewMatter c)
              "⚔️ Answer & New Matter filed - defendant fighting" (-5) st)))))

/-- Section 4 (positive half): capitulation signals, in source order. -/
def capitulationBlock (c : Case) (st : ScoreState) : ScoreState :=
  let t := docketTextOf c
  let ty := docketTypesOf c
  condAdd (jsIncludes t "SUBSTITUTION OF COUNSEL")
    "🔄 Substitution of Counsel - possible financial strain" 3
    (condAdd (jsIncludes t "WITHDRAW" && jsIncludes t "COUNSEL")
      "💰 Withdrawal of Counsel - financial distress signal!" 12
      (condAdd (jsIncludes t "NOT FOUND" || jsIncludes t "FAILURE OF SERVICE")
        "❓ Service issues - defendant may be avoiding" 5
        (condAdd (jsIncludes t "ALTERNATE SERVICE" || jsIncludes t "MOTION FOR ALTERNATE SERVICE")
          "📬 Motion for Alternate Service - hard to locate defendant" 5
          (condAdd (jsIncludes ty "PRAECIPE TO REINSTATE" ||
              jsIncludes t "PRAEC TO REINSTATE" || jsIncludes t "PRAECIPE TO REINSTATE")
            "📄 Praecipe to Reinstate - case reactivated after pause" 5 st))))

/-- Section 5: settlement and de-escalation signals, in source order
(the source also sets a local `hasSettlementSignal` that is never read). -/
def settlementBlock (c : Case) (st : ScoreState) : ScoreState :=
  let t := docketTextOf c
  condAdd (jsIncludes t "STIPULATION" && jsIncludes t "DISMISSAL")
    "📝 Stipulation of Dismissal - case may be resolving" 8
    (condAdd (jsIncludes t "STIPULATION" && !jsIncludes t "DISMISSAL")
      "📝 Stipulation filed - parties negotiating" 10
      (condAdd (jsIncludes t "MATTER SETTLED" || jsIncludes t "SETTLED")
        "🤝 Matter Settled notation - actively negotiating!" 15 st))

/-- Section 6, first statement: stay-lifted transition bonus. -/
def stayBlock (c : Case) (st : ScoreState) : ScoreState :=
  let t := docketTextOf c
  if (jsIncludes t "STAY IS LIFTED" || jsIncludes t "STAY LIFTED") && c.docket.isStayed then
    addFactor st "▶️ Stay LIFTED after pause - pressure resuming!" 12
  else if jsIncludes t "STAY IS LIFTED" || jsIncludes t "STAY LIFTED" then
    addFactor st "▶️ Stay Lifted - case resuming" 8
  else st

/-- Section 6, second statement: silence after heavy activity. -/
def silenceBlock (c : Case) (st : ScoreState) : ScoreState :=
  if 8 ≤ c.docket.entries ∧ 90 ≤ c.docket.daysSinceLastFiling then
    addFactor st "💤 Silence after heavy activity - likely exhausted" 10
  else if 5 ≤ c.docket.entries ∧ 60 ≤ c.docket.daysSinceLastFiling then
    addFactor st "💤 Slowing down after activity" 5
  else st

/-- Section 7: recent-activity penalty bands over
`daysSinceLastFiling = docket.daysSinceLastFiling || 0`. -/
def recencyBlock (c : Case) (st : ScoreState) : ScoreState :=
  let d := c.docket.daysSinceLastFiling
  if 0 < d ∧ d < 14 then
    addFactor st "🔥 Very recent filing (<14 days) - actively litigating" (-12)
  else if 14 ≤ d ∧ d < 30 then
    addFactor st "🔥 Recent filing (14-30 days)" (-8)
  else if 30 ≤ d ∧ d < 60 then
    addFactor st "⏳ Activity 30-60 days ago" (-4)
  else if 60 ≤ d ∧ d < 90 then
    addFactor st "⏳ Activity 60-90 days ago" 0
  else st

/-- `hasAdverseRuling` from section 8 (JS `&&` binds tighter than `||`). -/
def hasAdverseRuling (c : Case) : Bool :=
  jsIncludes (docketTextOf c) "DENIED" || jsIncludes (docketTextOf c) "OVERRULED" ||
    (jsIncludes (docketTextOf c) "MOTION GRANTED" && jsIncludes (docketTextOf c) "PLAINTIFF")

/-- Section 8: the false-hope dampener. -/
def falseHopeBlock (c : Case) (st : ScoreState) : ScoreState :=
  condAdd
    (decide (c.daysOpen < 360) && decide (6 ≤ c.docket.entries) &&
      activeFighting c && !hasAdverseRuling c)
    "⚠️ \"False hope\" - early fighter with no adverse rulings yet" (-8) st

/-- Section 9: bankruptcy check with decay. -/
def bankruptcyBlock (c : Case) (st : ScoreState) : ScoreState :=
  let t := docketTextOf c
  if c.docket.hasBankruptcy || jsIncludes t "BANKRUPTCY" then
    if jsIncludes t "DISCHARGE" && jsIncludes t "BANKRUPTCY" then
      addFactor st "✅ Bankruptcy DISCHARGED - case can proceed!" 8
    else if c.docket.daysSinceLastFiling < 90 then
      addFactor st "🚫 Recent bankruptcy activity - case likely stayed" (-25)
    else if c.docket.daysSinceLastFiling < 180 then
      addFactor st "🚫 Bankruptcy (moderating) - still impacting case" (-18)
    else
      addFactor st "⚠️ Bankruptcy noted - may be old/resolved" (-10)
  else st

/-- Section 10, first statement: property address presence/absence. -/
def addressBlock (c : Case) (st : ScoreState) : ScoreState :=
  if c.propertyAddress ≠ "" then
    addFactor st "📍 Has property address" 3
  else
    addFactor st "❓ No address found" (-5)

/-- Section 10, second statement: entity-defendant detection on
`(c.defendant || '').toUpperCase()`. -/
def entityBlock (c : Case) (st : ScoreState) : ScoreState :=
  let defendant := jsToUpper c.defendant
  condAdd
    (jsIncludes defendant "LLC" || jsIncludes defendant "INC" ||
      jsIncludes defendant "CORP" || jsIncludes defendant "TRUST" ||
      jsIncludes defendant "ESTATE OF" || jsIncludes defendant "BANK")
    "🏢 Entity defendant - less motivated" (-8) st

/-- The full accumulation of `calculateEnhancedScore` before the final clamp:
every section applied in source order, starting from `score = 0`,
`factors = []`. -/
def enhancedScoreState (c : Case) : ScoreState :=
  entityBlock c (addressBlock c (bankruptcyBlock c (falseHopeBlock c
    (recencyBlock c (silenceBlock c (stayBlock c (settlementBlock c
      (capitulationBlock c (resistanceBlock c (continuanceBlock c
        (activityBlock c (ageBlock c ⟨0, []⟩))))))))))))

/-- The `{ score, grade, factors }` result object. -/
structure LeadScore where
  score : Int
  grade : String
  factors : List Factor
  deriving DecidableEq

/-- `calculateEnhancedScore`: accumulate, clamp with
`Math.max(0, Math.min(100, score))`, then grade the clamped score. -/
def calculateEnhancedScore (c : Case) : LeadScore :=
  let st := enhancedScoreState c
  let score := max 0 (min 100 st.score)
  let grade : String :=
    if 80 ≤ score then "A"
    else if 65 ≤ score then "B"
    else if 50 ≤ score then "C"
    else if 35 ≤ score then "D"
    else "F"
  ⟨score, grade, st.factors⟩

/-- `calculateScore`: the legacy entry point, kept for compatibility. -/
def calculateScore (c : Case) : LeadScore :=
  calculateEnhancedScore c

/-- The documented grade thresholds as a standalone function of the score,
for comparison with the grade the scorer returns. -/
def gradeOf (s : Int) : String :=
  if 80 ≤ s then "A"
  else if 65 ≤ s then "B"
  else if 50 ≤ s then "C"
  else if 35 ≤ s then "D"
  else "F"

/-! ## Address parser (civilview.js, `parseAddress`)

Each regular expression of the source is translated to a scanning
function with JS leftmost-match and lazy/greedy backtracking semantics. -/

/-- `KNOWN_CITIES` verbatim from the source. -/
def KNOWN_CITIES : List String :=
  ["CAMDEN", "CHERRY HILL", "VOORHEES", "SICKLERVILLE", "HADDONFIELD",
   "BLACKWOOD", "LINDENWOLD", "GLOUCESTER", "PENNSAUKEN", "COLLINGSWOOD",
   "CLEMENTON", "ATCO", "BERLIN", "MAGNOLIA", "AUDUBON", "RUNNEMEDE",
   "BELLMAWR", "HADDON", "WINSLOW", "PINE HILL", "GLENDORA", "ERIAL",
   "WATERFORD", "MERCHANTVILLE", "LAWNSIDE", "BARRINGTON", "SOMERDALE",
   "OAKLYN", "WOODLYNNE", "STRATFORD", "LAUREL SPRINGS", "CHESILHURST",
   "MOUNT EPHRAIM", "BROOKLAWN", "HADDON HEIGHTS", "HADDON TOWNSHIP",
   "GLOUCESTER CITY", "GLOUCESTER TWP", "WINSLOW TOWNSHIP", "HAMMONTON",
   "NORRISTOWN", "KING OF PRUSSIA", "LANSDALE", "POTTSTOWN", "AMBLER",
   "CONSHOHOCKEN", "JENKINTOWN", "HATBORO", "COLLEGEVILLE", "ROYERSFORD",
   "TRAPPE", "SCHWENKSVILLE", "PENNSBURG", "SOUDERTON", "TELFORD",
   "HATFIELD", "NORTH WALES", "ABINGTON", "CHELTENHAM", "UPPER MERION",
   "LOWER MERION", "UPPER DUBLIN", "HORSHAM", "WILLOW GROVE", "BLUE BELL",
   "LIMERICK", "LIMERICK TOWNSHIP", "PERKIOMEN TOWNSHIP", "SPRINGFIELD",
   "ARDMORE", "BRYN MAWR", "GLADWYNE", "ELKINS PARK", "GLENSIDE",
   "BRIDGEPORT", "EAST NORRITON", "WEST NORRITON", "PLYMOUTH MEETING",
   "WHITEMARSH", "FLOURTOWN", "FORT WASHINGTON", "DRESHER", "MAPLE GLEN",
   "HARLEYSVILLE", "SKIPPACK", "WORCESTER", "FRANCONIA", "SALFORD",
   "LOWER SALFORD", "UPPER SALFORD", "MARLBOROUGH", "GREEN LANE",
   "RED HILL", "EAST GREENVILLE", "UPPER HANOVER", "LOWER FREDERICK",
   "UPPER FREDERICK", "NEW HANOVER", "DOUGLASS", "UPPER POTTSGROVE",
   "LOWER POTTSGROVE", "WEST POTTSGROVE", "LOWER PROVIDENCE",
   "UPPER PROVIDENCE", "TOWAMENCIN", "MONTGOMERY", "UPPER GWYNEDD",
   "LOWER GWYNEDD", "WHITPAIN", "UPPER MORELAND", "LOWER MORELAND",
   "ABINGTON TOWNSHIP", "BRYN ATHYN", "ROCKLEDGE", "WEST CONSHOHOCKEN"]

/-- Stable insertion step: keep `b` in front of `a` while `b` sorts
strictly before `a`. -/
def insertOrd (bef : α → α → Bool) (a : α) : List α → List α
  | [] => [a]
  | b :: bs => if bef b a then b :: insertOrd bef a bs else a :: b :: bs

/-- Stable sort by the strict-before relation `bef`; for a consistent JS
comparator this is exactly what `Array.prototype.sort` (stable) produces. -/
def sortOrd (bef : α → α → Bool) : List α → List α
  | [] => []
  | x :: xs => insertOrd bef x (sortOrd bef xs)

/-- `[...KNOWN_CITIES].sort((a, b) => b.length - a.length)`. -/
def sortedCities : List String :=
  sortOrd (fun a b => b.length < a.length) KNOWN_CITIES

/-- Try to read exactly five digits at the head (first alternative of the
regex `/(\d{5})(-\d{4})?/`; the optional extension does not influence the
captured group). -/
def take5Digits : List Char → Option String
  | c1 :: c2 :: c3 :: c4 :: c5 :: _ =>
    if c1.isDigit && c2.isDigit && c3.isDigit && c4.isDigit && c5.isDigit then
      some (String.mk [c1, c2, c3, c4, c5])
    else none
  | _ => none

/-- Leftmost match of `/(\d{5})(-\d{4})?/`, returning capture group 1. -/
def findZipAux : List Char → Option String
  | [] => none
  | l@(_ :: rest) =>
    match take5Digits l with
    | some z => some z
    | none => findZipAux rest

/-- JS `\w` (word character): `[A-Za-z0-9_]`. -/
def isWordChar (c : Char) : Bool := c.isAlphanum || c = '_'

/-- Leftmost match of `/\b(NJ|PA)\b/i`, returning the captured token
upper-cased (the source applies `.toUpperCase()` to the capture);
`prev` is the character just before the scan position. -/
def findStateAux : Option Char → List Char → Option String
  | _, [] => none
  | prev, c1 :: rest =>
    let okL : Bool := match prev with
      | none => true
      | some p => !isWordChar p
    let okR : Bool := match rest with
      | [] => true
      | _ :: rest2 =>
        match rest2 with
        | [] => true
        | r :: _ => !isWordChar r
    match rest with
    | c2 :: _ =>
      if okL && okR && c1.toUpper = 'N' && c2.toUpper = 'J' then some "NJ"
      else if okL && okR && c1.toUpper = 'P' && c2.toUpper = 'A' then some "PA"
      else findStateAux (some c1) rest
    | [] => none

/-- First index at which `needle` occurs in `l`, if any. -/
def subIdx (needle : List Char) : List Char → Option Nat
  | [] => if needle.isEmpty then some 0 else none
  | l@(_ :: rest) =>
    if strStarts needle l then some 0
    else (subIdx needle rest).map (· + 1)

/-- `\s*NEEDLE` anchored at the head: zero or more spaces, then `needle`. -/
def spacesThenSub (needle : List Char) : List Char → Bool
  | [] => needle.isEmpty
  | c :: rest => strStarts needle (c :: rest) || (isSpaceChar c && spacesThenSub needle rest)

/-- Length of capture group 1 for the lazy regex `/(.+?)\s*CITY/i`: the
smallest `L ≥ 1` such that, after `L` characters, optional spaces are
followed by the city name. -/
def cityScanAux (city : List Char) : List Char → Nat → Option Nat
  | [], _ => none
  | _ :: rest, n =>
    if spacesThenSub city rest then some (n + 1)
    else cityScanAux city rest (n + 1)

/-- The `for (const knownCity of sortedCities)` loop: first city whose
regex matches, together with the capture length. -/
def cityLookup (hay : List Char) : List String → Option (String × Nat)
  | [] => none
  | cty :: rest =>
    match cityScanAux cty.data hay 0 with
    | some len => some (cty, len)
    | none => cityLookup hay rest

/-- Strip one trailing run matched by `/[,\s]+$/`. -/
def stripCommaSpaceEnd (l : List Char) : List Char :=
  (l.reverse.dropWhile (fun c => c = ',' || isSpaceChar c)).reverse

/-- Strip the match of `/,\s*$/` (one comma, then only spaces to the end). -/
def stripOneCommaEnd (l : List Char) : List Char :=
  let r := l.reverse.dropWhile isSpaceChar
  match r with
  | ',' :: r2 => r2.reverse
  | _ => l

/-- Does `/\s*(NJ|PA)\s*\d{5}(-\d{4})?\s*$/i` match this entire tail?
Each `\s*` is followed by a non-space token, so greedy skipping needs
no backtracking; the optional `-\d{4}` group is resolved
deterministically by the next character. -/
def stateZipTail (l : List Char) : Bool :=
  match l.dropWhile isSpaceChar with
  | a :: b :: rest =>
    if (a.toUpper = 'N' && b.toUpper = 'J') || (a.toUpper = 'P' && b.toUpper = 'A') then
      match rest.dropWhile isSpaceChar with
      | d1 :: d2 :: d3 :: d4 :: d5 :: rest2 =>
        if d1.isDigit && d2.isDigit && d3.isDigit && d4.isDigit && d5.isDigit then
          match rest2 with
          | '-' :: e1 :: e2 :: e3 :: e4 :: rest3 =>
            if e1.isDigit && e2.isDigit && e3.isDigit && e4.isDigit then
              rest3.all isSpaceChar
            else false
          | _ => rest2.all isSpaceChar
        else false
      | _ => false
    else false
  | _ => false

/-- Leftmost start index of a `stateZipTail` match extending to the end. -/
def stateZipIdx : List Char → Option Nat
  | [] => none
  | l@(_ :: rest) =>
    if stateZipTail l then some 0
    else (stateZipIdx rest).map (· + 1)

/-- `address.replace(/\s*(NJ|PA)\s*\d{5}(-\d{4})?\s*$/i, '')`. -/
def stripStateZipEnd (l : List Char) : List Char :=
  match stateZipIdx l with
  | some i => l.take i
  | none => l

/-- A character of the class `[A-Za-z\s]`. -/
def letterSpace (c : Char) : Bool := c.isAlpha || isSpaceChar c

/-- `\s+(NJ|PA)\s*\d{5}$` anchored at the head: the optional suffix group of
the comma-fallback city regex. -/
def citySuffixTail (l : List Char) : Bool :=
  match l with
  | c :: rest =>
    if isSpaceChar c then
      match rest.dropWhile isSpaceChar with
      | a :: b :: l2 =>
        if (a.toUpper = 'N' && b.toUpper = 'J') || (a.toUpper = 'P' && b.toUpper = 'A') then
          match l2.dropWhile isSpaceChar with
          | [d1, d2, d3, d4, d5] =>
            d1.isDigit && d2.isDigit && d3.isDigit && d4.isDigit && d5.isDigit
          | _ => false
        else false
      | _ => false
    else false
  | [] => false

/-- Capture group 1 of `/^([A-Za-z\s]+?)(?:\s+(?:NJ|PA)\s*\d{5})?$/i`:
the lazy group grows until the rest is empty or matches the optional
suffix; every group character must be a letter or space. -/
def cityPartAux (acc : List Char) : List Char → Option (List Char)
  | [] => none
  | c :: rest =>
    if letterSpace c then
      if rest.isEmpty || citySuffixTail rest then some (acc ++ [c])
      else cityPartAux (acc ++ [c]) rest
    else none

/-- The parsed address record returned by `parseAddress`. -/
structure ParsedAddress where
  address : String
  city : String
  state : String
  zipCode : String
  deriving DecidableEq

/-- `parseAddress(fullAddress, defaultState)` from civilview.js: normalize
whitespace, capture ZIP and state, discard an `A/K/A` tail, try the sorted
known-city regexes, fall back to comma splitting, then strip a trailing
`state zip` run and trailing commas from the street part. -/
def parseAddress (fullAddress0 : String) (defaultState : String) : ParsedAddress :=
  if fullAddress0 = "" then
    { address := "", city := "", state := defaultState, zipCode := "" }
  else
    let fa1 : List Char := normSpace fullAddress0.data
    let zipCode : String := (findZipAux fa1).getD ""
    let state : String := (findStateAux none fa1).getD defaultState
    -- A/K/A handling: keep only the first alias
    let fa2 : List Char :=
      if hasSubAux "A/K/A".data fa1 then
        match subIdx "A/K/A".data fa1 with
        | some i => jsTrimL (fa1.take i)
        | none => fa1
      else fa1
    let upperA : List Char := fa2.map Char.toUpper
    match cityLookup upperA sortedCities with
    | some (cityName, len) =>
      -- known-city branch: street is everything captured before the city
      let addr1 := jsTrimL (stripCommaSpaceEnd (jsTrimL (fa2.take len)))
      let addr2 := jsTrimL (stripOneCommaEnd (jsTrimL (stripStateZipEnd addr1)))
      { address := String.mk addr2, city := cityName, state := state, zipCode := zipCode }
    | none =>
      -- comma fallback: "123 Main St, City, ST 12345"
      let addrBase : List Char :=
        if fa2.contains ',' then
          match subIdx [','] fa2 with
          | some i => jsTrimL (fa2.take i)
          | none => fa2
        else fa2
      let city : String :=
        if fa2.contains ',' then
          match subIdx [','] fa2 with
          | some i =>
            let afterComma := fa2.drop (i + 1)
            let part1 :=
              match subIdx [','] afterComma with
              | some j => afterComma.take j
              | none => afterComma
            match cityPartAux [] (jsTrimL part1) with
            | some cap => jsToUpper (String.mk (jsTrimL cap))
            | none => ""
          | none => ""
        else ""
      let addr2 := jsTrimL (stripOneCommaEnd (jsTrimL (stripStateZipEnd addrBase)))
      { address := String.mk addr2, city := city, state := state, zipCode := zipCode }

/-! ## Montgomery County pipeline (scrapeMontgomeryCourts)

The browser automation is external: the per-case page extraction is an
oracle parameter, `none` standing for the `continue` taken when the detail
page is missing or an exception is caught. The date arithmetic against
`new Date()` is likewise an injected clock. -/

/-- Greedy alternatives for `\d{1,2}` followed by the rest: two digits
first, then one, in backtracking order, each with the remaining input. -/
def matchSlashNum : List Char → List (String × List Char)
  | c1 :: c2 :: rest =>
    (if c1.isDigit && c2.isDigit then [(String.mk [c1, c2], rest)] else []) ++
      (if c1.isDigit then [(String.mk [c1], c2 :: rest)] else [])
  | [c1] => if c1.isDigit then [(String.mk [c1], [])] else []
  | [] => []

/-- Match `/(\d{1,2})\/(\d{1,2})\/(\d{4})/` anchored at the head, with the
JS backtracking order, returning the three captures. -/
def matchDateAt (l : List Char) : Option (String × String × String) :=
  (matchSlashNum l).findSome? fun mr =>
    match mr.2 with
    | '/' :: r1 =>
      (matchSlashNum r1).findSome? fun dr =>
        match dr.2 with
        | '/' :: r2 =>
          match r2 with
          | y1 :: y2 :: y3 :: y4 :: _ =>
            if y1.isDigit && y2.isDigit && y3.isDigit && y4.isDigit then
              some (mr.1, dr.1, String.mk [y1, y2, y3, y4])
            else none
          | _ => none
        | _ => none
    | _ => none

/-- Leftmost match of the date pattern. -/
def findDate : List Char → Option (String × String × String)
  | [] => none
  | l@(_ :: rest) =>
    match matchDateAt l with
    | some r => some r
    | none => findDate rest

/-- JS `padStart(2, '0')`. -/
def padStart2 (s : String) : String :=
  if 2 ≤ s.length then s else if s.length = 1 then "0" ++ s else "00"

/-- `parseDate`: reformat the first `m/d/yyyy` occurrence as `yyyy-mm-dd`,
`null` (here `none`) when absent. -/
def parseDate (dateStr : String) : Option String :=
  if dateStr = "" then none
  else
    match findDate dateStr.data with
    | some (m1, m2, m3) => some (m3 ++ "-" ++ padStart2 m1 ++ "-" ++ padStart2 m2)
    | none => none

/-- Numeric value of a digit string (the coercion JS applies when the
captured strings are fed to the `Date` constructor). -/
def digitsToNat (s : String) : Nat :=
  s.data.foldl (fun a c => a * 10 + (c.toNat - 48)) 0

/-- One record produced by `parseCSV`. -/
structure RawCase where
  caseNumber : String
  commencedDate : String
  plaintiff : String
  defendant : String
  hasJudgement : Bool
  status : String
  deriving DecidableEq

/-- The CSV-status filter of the pipeline:
`c.status.toUpperCase().includes('OPEN') && !c.hasJudgement`. -/
def statusOpen (c : RawCase) : Bool :=
  jsIncludes (jsToUpper c.status) "OPEN" && !c.hasJudgement

/-- A case after the date-enrichment `.map` step. -/
structure TargetCase where
  raw : RawCase
  daysOpen : Int
  monthsOpen : Int
  inSweetSpot : Bool
  deriving DecidableEq

/-- `Math.round(d / 30)` for an integral `d`: `⌊d / 30 + 1 / 2⌋`. -/
def jsRound30 (d : Int) : Int := Int.fdiv (2 * d + 30) 60

/-- The `.map` step: `daysOpen` from the commenced-date match via the
injected clock (`Math.ceil((now - new Date(y, m - 1, d)) / 86400000)`), or
0 when the date does not parse; sweet spot is 270-540 days
(`CONFIG.sweetSpotMinMonths/MaxMonths * 30`). -/
def enrichDates (clock : Nat → Nat → Nat → Int) (c : RawCase) : TargetCase :=
  let d : Int :=
    match findDate c.commencedDate.data with
    | some (m1, m2, m3) => clock (digitsToNat m3) (digitsToNat m1) (digitsToNat m2)
    | none => 0
  { raw := c, daysOpen := d, monthsOpen := jsRound30 d,
    inSweetSpot := decide (270 ≤ d) && decide (d ≤ 540) }

/-- `targets`: status filter, date enrichment, then the age window
`CONFIG.minMonthsOld * 30 = 180` to `CONFIG.maxMonthsOld * 30 = 720`. -/
def montcoTargets (clock : Nat → Nat → Nat → Int) (cases : List RawCase) : List TargetCase :=
  ((cases.filter statusOpen).map (enrichDates clock)).filter
    (fun t => decide (180 ≤ t.daysOpen) && decide (t.daysOpen ≤ 720))

/-- The target comparator (`cmp(a, b) < 0`): sweet-spot cases first, then
older (larger `daysOpen`) first. -/
def targetBefore (a b : TargetCase) : Bool :=
  (a.inSweetSpot && !b.inSweetSpot) ||
    (a.inSweetSpot = b.inSweetSpot && decide (b.daysOpen < a.daysOpen))

/-- One address row extracted from the detail page. -/
structure ScrapedAddr where
  street : String
  city : String
  state : String
  zip : String
  inMontCo : Bool
  deriving DecidableEq

/-- The data the page-evaluation step hands back for one case. -/
structure PageData where
  addresses : List ScrapedAddr
  docket : Docket
  deriving DecidableEq

/-- The record pushed to `results` for one scraped case (the fields echoing
the docket verbatim and the detail URL are presentation-only and elided). -/
structure CaseResult where
  caseNumber : String
  commencedDate : Option String
  daysOpen : Int
  monthsOpen : Int
  inSweetSpot : Bool
  plaintiff : String
  defendant : String
  propertyAddress : String
  propertyCity : String
  propertyState : String
  propertyZip : String
  inMontgomeryCounty : Bool
  hasJudgement : Bool
  status : String
  leadScore : Int
  leadGrade : String
  scoreFactors : List Factor
  deriving DecidableEq

/-- JS `x || fallback` on strings: empty is falsy. -/
def strOr (s fallback : String) : String := if s = "" then fallback else s

/-- Build the `results.push` record for a target whose page data arrived:
best address (`find(inMontCo) || addresses[0] || null`), scoring of the
mutated case object, then the output fields. -/
def buildResult (t : TargetCase) (pd : PageData) : CaseResult :=
  let bestAddr : Option ScrapedAddr :=
    match pd.addresses.find? (fun a => a.inMontCo) with
    | some a => some a
    | none => pd.addresses.head?
  let propertyAddress := match bestAddr with | some a => a.street | none => ""
  let propertyCity := match bestAddr with | some a => a.city | none => ""
  let propertyState := strOr (match bestAddr with | some a => a.state | none => "") "PA"
  let propertyZip := match bestAddr with | some a => a.zip | none => ""
  let inMontCo := match bestAddr with | some a => a.inMontCo | none => false
  let scored : Case :=
    { daysOpen := t.daysOpen, monthsOpen := t.monthsOpen,
      propertyAddress := propertyAddress, defendant := t.raw.defendant,
      docket := pd.docket }
  let ls := calculateEnhancedScore scored
  { caseNumber := t.raw.caseNumber, commencedDate := parseDate t.raw.commencedDate,
    daysOpen := t.daysOpen, monthsOpen := t.monthsOpen, inSweetSpot := t.inSweetSpot,
    plaintiff := t.raw.plaintiff, defendant := t.raw.defendant,
    propertyAddress := propertyAddress, propertyCity := propertyCity,
    propertyState := propertyState, propertyZip := propertyZip,
    inMontgomeryCounty := inMontCo, hasJudgement := t.raw.hasJudgement,
    status := t.raw.status, leadScore := ls.score, leadGrade := ls.grade,
    scoreFactors := ls.factors }

/-- The deterministic core of `scrapeMontgomeryCourts`: filter, enrich
dates, sort (sweet spot first), apply the test-mode limit
(`CONFIG.testModeLimit = 10`; `maxCasesToProcess = 0` imposes none),
scrape each target through the oracle (skipping failures), and sort the
results by descending score. -/
def scrapeMontgomeryCourts (clock : Nat → Nat → Nat → Int) (testMode : Bool)
    (enrich : RawCase → Option PageData) (allCases : List RawCase) : List CaseResult :=
  let targets := sortOrd targetBefore (montcoTargets clock allCases)
  let targets := if testMode then targets.take 10 else targets
  let results := targets.filterMap (fun t => (enrich t.raw).map (buildResult t))
  sortOrd (fun a b => decide (b.leadScore < a.leadScore)) results

/-! ## Derived notions used by the statements -/

/-- Sum of the `impact` entries of a factors list. -/
def sumImpacts : List Factor → Int
  | [] => 0
  | f :: fs => f.impact + sumImpacts fs

/-- How far a state is from having its score explained by its factors. -/
def unbal (st : ScoreState) : Int := st.score - sumImpacts st.factors

/-- The continuance award exactly as the spec words it: +5 for each of the
first 3 continuances, +3 for each of the next 3, +1 for each beyond. -/
def continuanceSpec (n : Nat) : Int :=
  5 * min (n : Int) 3 + 3 * (min (n : Int) 6 - min (n : Int) 3) +
    ((n : Int) - min (n : Int) 6)

/-! ## Concrete instances for witnesses and counterexamples -/

/-- A case with no docket data at all (`totalEntries = 0`). -/
def c4case : Case :=
  { daysOpen := 300, monthsOpen := 10, propertyAddress := "100 MAIN ST",
    defendant := "JOHN DOE", docket := Docket.empty }

/-- A case whose single docket entry was filed today
(`daysSinceLastFiling = 0`). -/
def c5cex : Case :=
  { daysOpen := 300, monthsOpen := 10, propertyAddress := "7 OAK AVE",
    defendant := "",
    docket := { entries := 1, allText := "COMPLAINT", allTypes := "COMPLAINT",
                daysSinceLastFiling := 0, continuanceCount := 0,
                isStayed := false, hasBankruptcy := false } }

/-- A case whose last docket activity was 70 days ago. -/
def c5w70case : Case :=
  { daysOpen := 300, monthsOpen := 10, propertyAddress := "7 OAK AVE",
    defendant := "",
    docket := { entries := 1, allText := "COMPLAINT", allTypes := "COMPLAINT",
                daysSinceLastFiling := 70, continuanceCount := 0,
                isStayed := false, hasBankruptcy := false } }

/-- Scenario A of the spec: 300 days open, no judgment, docket consisting of
one entry reading MATTER SETTLED (filed 90 days ago), address present. -/
def c7case : Case :=
  { daysOpen := 300, monthsOpen := 10, propertyAddress := "123 MAIN ST",
    defendant := "JANE DOE",
    docket := { entries := 1, allText := "MATTER SETTLED", allTypes := "",
                daysSinceLastFiling := 90, continuanceCount := 0,
                isStayed := false, hasBankruptcy := false } }

/-- Raw CSV cases for the pipeline witness: one OPEN case without judgment
and one OPEN case with a judgment entered. -/
def c3raws : List RawCase :=
  [{ caseNumber := "2023-00001", commencedDate := "01/15/2024",
     plaintiff := "ACME BANK", defendant := "JOHN DOE",
     hasJudgement := false, status := "OPEN" },
   { caseNumber := "2023-00002", commencedDate := "01/15/2024",
     plaintiff := "ACME BANK", defendant := "JANE ROE",
     hasJudgement := true, status := "OPEN" }]

/-- A clock placing every commenced date 300 days in the past. -/
def c3clock : Nat → Nat → Nat → Int := fun _ _ _ => 300

/-- A document source returning an empty detail page for every case. -/
def c3enrich : RawCase → Option PageData :=
  fun _ => some { addresses := [], docket := Docket.empty }

/-- The single record the pipeline emits on `c3raws`. -/
def c3resultw : CaseResult :=
  { caseNumber := "2023-00001", commencedDate := some "2024-01-15",
    daysOpen := 300, monthsOpen := 10, inSweetSpot := true,
    plaintiff := "ACME BANK", defendant := "JOHN DOE",
    propertyAddress := "", propertyCity := "", propertyState := "PA",
    propertyZip := "", inMontgomeryCounty := false, hasJudgement := false,
    status := "OPEN", leadScore := 22, leadGrade := "F",
    scoreFactors := [⟨"🎯 SWEET SPOT (9-18 months) - maximum pressure", 25⟩,
                     ⟨"📋 Low activity (0 entries)", 2⟩,
                     ⟨"❓ No address found", -5⟩] }

/-! ## Helper lemmas: each scoring block keeps score and factors in sync -/

theorem sumImpacts_append (xs : List Factor) (f : Factor) :
    sumImpacts (xs ++ [f]) = sumImpacts xs + f.impact := by
  induction xs with
  | nil => simp [sumImpacts]
  | cons a as ih =>
    have hc : (a :: as) ++ [f] = a :: (as ++ [f]) := rfl
    rw [hc]
    show a.impact + sumImpacts (as ++ [f]) = a.impact + sumImpacts as + f.impact
    rw [ih]
    ring

theorem addFactor_unbal (st : ScoreState) (t : String) (d : Int) :
    unbal (addFactor st t d) = unbal st := by
  simp [unbal, addFactor, sumImpacts_append]

theorem condAdd_unbal (b : Bool) (t : String) (d : Int) (st : ScoreState) :
    unbal (condAdd b t d st) = unbal st := by
  unfold condAdd
  split
  · exact addFactor_unbal st t d
  · rfl

theorem ageBlock_unbal (c : Case) (st : ScoreState) :
    unbal (ageBlock c st) = unbal st := by
  unfold ageBlock
  dsimp only
  repeat' split
  all_goals first | rw [addFactor_unbal] | rfl

theorem activityBlock_unbal (c : Case) (st : ScoreState) :
    unbal (activityBlock c st) = unbal st := by
  unfold activityBlock
  dsimp only
  repeat' split
  all_goals first | rw [addFactor_unbal] | rfl

theorem continuanceBlock_unbal (c : Case) (st : ScoreState) :
    unbal (continuanceBlock c st) = unbal st := by
  unfold continuanceBlock
  dsimp only
  repeat' split
  all_goals first | rw [addFactor_unbal] | rfl

theorem resistanceBlock_unbal (c : Case) (st : ScoreState) :
    unbal (resistanceBlock c st) = unbal st := by
  unfold resistanceBlock
  simp only [condAdd_unbal]

theorem capitulationBlock_unbal (c : Case) (st : ScoreState) :
    unbal (capitulationBlock c st) = unbal st := by
  unfold capitulationBlock
  simp only [condAdd_unbal]

theorem settlementBlock_unbal (c : Case) (st : ScoreState) :
    unbal (settlementBlock c st) = unbal st := by
  unfold settlementBlock
  simp only [condAdd_unbal]

theorem stayBlock_unbal (c : Case) (st : ScoreState) :
    unbal (stayBlock c st) = unbal st := by
  unfold stayBlock
  dsimp only
  repeat' split
  all_goals first | rw [addFactor_unbal] | rfl

theorem silenceBlock_unbal (c : Case) (st : ScoreState) :
    unbal (silenceBlock c st) = unbal st := by
  unfold silenceBlock
  repeat' split
  all_goals first | rw [addFactor_unbal] | rfl

theorem recencyBlock_unbal (c : Case) (st : ScoreState) :
    unbal (recencyBlock c st) = unbal st := by
  unfold recencyBlock
  dsimp only
  repeat' split
  all_goals first | rw [addFactor_unbal] | rfl

theorem falseHopeBlock_unbal (c : Case) (st : ScoreState) :
    unbal (falseHopeBlock c st) = unbal st := by
  unfold falseHopeBlock
  simp only [condAdd_unbal]

theorem bankruptcyBlock_unbal (c : Case) (st : ScoreState) :
    unbal (bankruptcyBlock c st) = unbal st := by
  unfold bankruptcyBlock
  dsimp only
  repeat' split
  all_goals first | rw [addFactor_unbal] | rfl

theorem addressBlock_unbal (c : Case) (st : ScoreState) :
    unbal (addressBlock c st) = unbal st := by
  unfold addressBlock
  repeat' split
  all_goals rw [addFactor_unbal]

theorem entityBlock_unbal (c : Case) (st : ScoreState) :
    unbal (entityBlock c st) = unbal st := by
  unfold entityBlock
  simp only [condAdd_unbal]

theorem enhancedScoreState_unbal (c : Case) :
    unbal (enhancedScoreState c) = 0 := by
  unfold enhancedScoreState
  rw [entityBlock_unbal, addressBlock_unbal, bankruptcyBlock_unbal,
      falseHopeBlock_unbal, recencyBlock_unbal, silenceBlock_unbal,
      stayBlock_unbal, settlementBlock_unbal, capitulationBlock_unbal,
      resistanceBlock_unbal, continuanceBlock_unbal, activityBlock_unbal,
      ageBlock_unbal]
  rfl

/-! ## Claim theorems -/

/-- C1: for every input case, the score returned by
`calculateEnhancedScore` lies in `[0, 100]` and the returned grade is
exactly the threshold function of the clamped score
(≥80 A, ≥65 B, ≥50 C, ≥35 D, else F). -/
theorem score_bounds_and_grade (c : Case) :
    0 ≤ (calculateEnhancedScore c).score ∧ (calculateEnhancedScore c).score ≤ 100 ∧
      (calculateEnhancedScore c).grade = gradeOf (calculateEnhancedScore c).score := by
  refine ⟨?_, ?_, ?_⟩
  · show 0 ≤ max 0 (min 100 (enhancedScoreState c).score)
    exact le_max_left 0 _
  · show max 0 (min 100 (enhancedScoreState c).score) ≤ 100
    exact max_le (by norm_num) (min_le_left _ _)
  · rfl

/-- C2: the impacts of the factor entries returned by
`calculateEnhancedScore`, summed over the base score 0, equal exactly the
score accumulated before the final clamp to `[0, 100]`. -/
theorem factor_sum_is_unclamped_score (c : Case) :
    sumImpacts (calculateEnhancedScore c).factors = (enhancedScoreState c).score ∧
      (calculateEnhancedScore c).score = max 0 (min 100 (enhancedScoreState c).score) := by
  constructor
  · have h := enhancedScoreState_unbal c
    unfold unbal at h
    have hf : (calculateEnhancedScore c).factors = (enhancedScoreState c).factors := rfl
    rw [hf]
    omega
  · rfl

theorem continuanceLoop_eq_spec (n : Nat) : continuanceLoop n = continuanceSpec n := by
  induction n with
  | zero => rfl
  | succ n ih =>
    unfold continuanceLoop
    rw [ih]
    unfold continuanceSpec
    split_ifs <;> push_cast <;> omega

/-- C6: the continuance contribution of `calculateEnhancedScore` equals
`min 25 (continuanceSpec n)` where `continuanceSpec` awards +5 for each of
the first 3 continuances, +3 for the next 3 and +1 beyond; it is 0 for
`n = 0`. -/
theorem continuance_contribution (c : Case) (st : ScoreState) :
    (continuanceBlock c st).score - st.score =
      if 0 < c.docket.continuanceCount then
        min 25 (continuanceSpec c.docket.continuanceCount)
      else 0 := by
  unfold continuanceBlock
  dsimp only
  split
  · rw [continuanceLoop_eq_spec]
    simp [addFactor]
  · omega

/-- C10: the legacy entry point `calculateScore` returns exactly the result
of `calculateEnhancedScore` on every input; the two are extensionally
equal. -/
theorem calculateScore_delegates (c : Case) :
    calculateScore c = calculateEnhancedScore c := rfl

/-! ## Behaviour on an empty docket (claim C4) -/

theorem activityBlock_empty (c : Case) (st : ScoreState) (h : c.docket = Docket.empty) :
    activityBlock c st = addFactor st "📋 Low activity (0 entries)" 2 := by
  unfold activityBlock
  rw [h]
  rfl

theorem continuanceBlock_empty (c : Case) (st : ScoreState) (h : c.docket = Docket.empty) :
    continuanceBlock c st = st := by
  unfold continuanceBlock
  rw [h]
  rfl

theorem resistanceBlock_empty (c : Case) (st : ScoreState) (h : c.docket = Docket.empty) :
    resistanceBlock c st = st := by
  unfold resistanceBlock condAdd replyNewMatter counterclaimFiled defendantMSJ
    objectionOpposition prelimObjections answerNewMatter docketTextOf docketTypesOf
  rw [h]
  rfl

theorem capitulationBlock_empty (c : Case) (st : ScoreState) (h : c.docket = Docket.empty) :
    capitulationBlock c st = st := by
  unfold capitulationBlock condAdd docketTextOf docketTypesOf
  rw [h]
  rfl

theorem settlementBlock_empty (c : Case) (st : ScoreState) (h : c.docket = Docket.empty) :
    settlementBlock c st = st := by
  unfold settlementBlock condAdd docketTextOf
  rw [h]
  rfl

theorem stayBlock_empty (c : Case) (st : ScoreState) (h : c.docket = Docket.empty) :
    stayBlock c st = st := by
  unfold stayBlock docketTextOf
  rw [h]
  rfl

theorem silenceBlock_empty (c : Case) (st : ScoreState) (h : c.docket = Docket.empty) :
    silenceBlock c st = st := by
  unfold silenceBlock
  rw [h]
  rfl

theorem recencyBlock_empty (c : Case) (st : ScoreState) (h : c.docket = Docket.empty) :
    recencyBlock c st = st := by
  unfold recencyBlock
  rw [h]
  rfl

theorem falseHopeBlock_empty (c : Case) (st : ScoreState) (h : c.docket = Docket.empty) :
    falseHopeBlock c st = st := by
  unfold falseHopeBlock condAdd
  rw [h]
  simp [Docket.empty]

theorem bankruptcyBlock_empty (c : Case) (st : ScoreState) (h : c.docket = Docket.empty) :
    bankruptcyBlock c st = st := by
  unfold bankruptcyBlock docketTextOf
  rw [h]
  rfl

/-- C4 (amended): on a case with no docket data, the scorer runs without
error and every docket-text, continuance, transition, recency, false-hope
and bankruptcy factor is skipped; the factors are exactly the case-age
band, the docket-activity band (which still fires, recording
`Low activity (0 entries)` worth +2), the address factor and, where it
applies, the entity-defendant factor. -/
theorem empty_docket_only_case_level (c : Case) (h : c.docket = Docket.empty) :
    (calculateEnhancedScore c).factors =
      (entityBlock c (addressBlock c
        (addFactor (ageBlock c ⟨0, []⟩) "📋 Low activity (0 entries)" 2))).factors := by
  have hs : enhancedScoreState c =
      entityBlock c (addressBlock c
        (addFactor (ageBlock c ⟨0, []⟩) "📋 Low activity (0 entries)" 2)) := by
    unfold enhancedScoreState
    rw [activityBlock_empty c _ h, continuanceBlock_empty c _ h,
        resistanceBlock_empty c _ h, capitulationBlock_empty c _ h,
        settlementBlock_empty c _ h, stayBlock_empty c _ h,
        silenceBlock_empty c _ h, recencyBlock_empty c _ h,
        falseHopeBlock_empty c _ h, bankruptcyBlock_empty c _ h]
  show (enhancedScoreState c).factors = _
  rw [hs]

/-- C4 witness: the empty-docket characterization applied to a concrete
case with `docket.entries = 0`. -/
theorem empty_docket_only_case_level_witness :
    (calculateEnhancedScore c4case).factors =
      (entityBlock c4case (addressBlock c4case
        (addFactor (ageBlock c4case ⟨0, []⟩) "📋 Low activity (0 entries)" 2))).factors :=
  empty_docket_only_case_level c4case rfl

/-- C4 counterexample: a case whose docket has `totalEntries = 0` still
receives the docket-derived activity factor `Low activity (0 entries)`
worth +2, so the claim that no docket-derived factor contributes any
points and that only case-age, address and entity contributions appear is
false on the code. -/
theorem empty_docket_activity_cex :
    c4case.docket.entries = 0 ∧
      (calculateEnhancedScore c4case).factors =
        [⟨"🎯 SWEET SPOT (9-18 months) - maximum pressure", 25⟩,
         ⟨"📋 Low activity (0 entries)", 2⟩,
         ⟨"📍 Has property address", 3⟩] ∧
      (calculateEnhancedScore c4case).score = 30 := by decide

/-! ## Recency penalty bands (claim C5) -/

/-- C5 (amended): the recency contribution of `calculateEnhancedScore` as a
function of `d = daysSinceLastFiling` is −12 for `0 < d < 14` (a recorded
value of 0 — the no-data encoding, which includes activity earlier today —
contributes nothing), −8 for `14 ≤ d < 30`, −4 for `30 ≤ d < 60`, and 0
for `60 ≤ d < 90`, the neutral band still being recorded as a factor. -/
theorem recency_penalty_bands (c : Case) (st : ScoreState) :
    ((recencyBlock c st).score - st.score =
      (if 0 < c.docket.daysSinceLastFiling ∧ c.docket.daysSinceLastFiling < 14 then -12
       else if 14 ≤ c.docket.daysSinceLastFiling ∧ c.docket.daysSinceLastFiling < 30 then -8
       else if 30 ≤ c.docket.daysSinceLastFiling ∧ c.docket.daysSinceLastFiling < 60 then -4
       else 0)) ∧
    (60 ≤ c.docket.daysSinceLastFiling ∧ c.docket.daysSinceLastFiling < 90 →
      (recencyBlock c st).factors = st.factors ++ [⟨"⏳ Activity 60-90 days ago", 0⟩]) := by
  constructor
  · unfold recencyBlock
    dsimp only
    split_ifs <;> simp [addFactor]
  · intro hd
    unfold recencyBlock
    dsimp only
    rw [if_neg (by omega), if_neg (by omega), if_neg (by omega), if_pos (by omega)]
    rfl

/-- C5 witness: the neutral 60-90 band applied at `d = 70` records the
zero-impact factor. -/
theorem recency_penalty_bands_witness :
    (recencyBlock c5w70case ⟨0, []⟩).factors =
      (⟨0, []⟩ : ScoreState).factors ++ [⟨"⏳ Activity 60-90 days ago", 0⟩] :=
  (recency_penalty_bands c5w70case ⟨0, []⟩).2 (by decide)

/-- C5 counterexample: a case whose single docket entry was filed today
(`daysSinceLastFiling = 0 < 14`) receives no recency penalty at all — its
factor list carries no −12 entry — so the claim that any activity within
the last 14 days contributes −12 is false on the code, which requires
`daysSinceLastFiling > 0`. -/
theorem recency_day_zero_cex :
    c5cex.docket.entries = 1 ∧ c5cex.docket.daysSinceLastFiling = 0 ∧
      c5cex.docket.daysSinceLastFiling < 14 ∧
      (calculateEnhancedScore c5cex).factors =
        [⟨"🎯 SWEET SPOT (9-18 months) - maximum pressure", 25⟩,
         ⟨"📋 Low activity (1 entries)", 2⟩,
         ⟨"📍 Has property address", 3⟩] ∧
      (calculateEnhancedScore c5cex).score = 30 := by decide

/-! ## Scenario A (claim C7) -/

/-- C7 (amended): the scenario-A case (300 days open, docket consisting of
one MATTER SETTLED entry, address present) scores +25 for the 270-540 day
band, +2 for the one-entry activity band, +15 for the settlement signal
and +3 for the address factor the scorer always applies, giving raw score
45, clamped 45, grade D. -/
theorem scenario_a_actual :
    (calculateEnhancedScore c7case).factors =
      [⟨"🎯 SWEET SPOT (9-18 months) - maximum pressure", 25⟩,
       ⟨"📋 Low activity (1 entries)", 2⟩,
       ⟨"🤝 Matter Settled notation - actively negotiating!", 15⟩,
       ⟨"📍 Has property address", 3⟩] ∧
      (calculateEnhancedScore c7case).score = 45 ∧
      (calculateEnhancedScore c7case).grade = "D" := by decide

/-- C7 counterexample: on the scenario-A case the scorer does not return
score 42 and does not return grade C (the address factor always fires,
giving 45, and a score of 42 would grade D anyway). -/
theorem scenario_a_cex :
    (calculateEnhancedScore c7case).score ≠ 42 ∧
      (calculateEnhancedScore c7case).grade ≠ "C" := by decide

/-! ## The ZIP invariant (claims C8, C9) -/

theorem take5Digits_shape (l : List Char) (z : String) (h : take5Digits l = some z) :
    z.length = 5 ∧ z.data.all Char.isDigit = true := by
  unfold take5Digits at h
  split at h
  · split_ifs at h with hd
    cases h
    refine ⟨rfl, ?_⟩
    simp only [List.all_cons, List.all_nil, Bool.and_true, Bool.and_eq_true] at hd ⊢
    tauto
  · simp at h

theorem findZipAux_shape (l : List Char) (z : String) (h : findZipAux l = some z) :
    z.length = 5 ∧ z.data.all Char.isDigit = true := by
  induction l with
  | nil => simp [findZipAux] at h
  | cons c rest ih =>
    rw [findZipAux] at h
    split at h
    · rename_i z2 heq
      cases h
      exact take5Digits_shape _ _ heq
    · exact ih h

theorem parseAddress_zip (s d : String) (hs : ¬s = "") :
    (parseAddress s d).zipCode = (findZipAux (normSpace s.data)).getD "" := by
  unfold parseAddress
  rw [if_neg hs]
  dsimp only
  split <;> rfl

/-- C8: for every input string, the `zipCode` field returned by
`parseAddress` is either empty or a string of exactly 5 ASCII digits; the
`-####` extension is never part of it. -/
theorem zip_empty_or_five_digits (s d : String) :
    (parseAddress s d).zipCode = "" ∨
      ((parseAddress s d).zipCode.length = 5 ∧
        (parseAddress s d).zipCode.data.all Char.isDigit = true) := by
  by_cases hs : s = ""
  · left
    rw [hs]
    rfl
  · rw [parseAddress_zip s d hs]
    cases hz : findZipAux (normSpace s.data) with
    | none => left; rfl
    | some z =>
      right
      simpa using findZipAux_shape _ _ hz

/-- C9: on the concatenated street-city input of scenario C, `parseAddress`
splits the run at the known city name and returns street `25 ASPEN WAY`,
city `SCHWENKSVILLE`, state `PA` and zip `19473`. -/
theorem scenario_c_address_parse :
    parseAddress "25 ASPEN WAYSCHWENKSVILLE, PA 19473 UNITED STATES" "NJ" =
      { address := "25 ASPEN WAY", city := "SCHWENKSVILLE",
        state := "PA", zipCode := "19473" } := by decide

/-! ## The pipeline filter (claim C3) -/

theorem mem_insertOrd (bef : α → α → Bool) (a x : α) (l : List α) :
    x ∈ insertOrd bef a l ↔ x = a ∨ x ∈ l := by
  induction l with
  | nil => simp [insertOrd]
  | cons b bs ih =>
    unfold insertOrd
    split
    all_goals simp only [List.mem_cons, ih]
    all_goals tauto

theorem mem_sortOrd (bef : α → α → Bool) (x : α) (l : List α) :
    x ∈ sortOrd bef l ↔ x ∈ l := by
  induction l with
  | nil => simp [sortOrd]
  | cons b bs ih =>
    simp [sortOrd, mem_insertOrd, ih]

/-- C3: every record in the output of the pipeline comes from a raw case
that passed the status filter, hence a case with `hasJudgement = true`
never appears in the output regardless of score, and every output record
has a status containing OPEN (case-insensitively). -/
theorem judgement_cases_never_in_output (clock : Nat → Nat → Nat → Int)
    (testMode : Bool) (enrich : RawCase → Option PageData)
    (allCases : List RawCase) (r : CaseResult)
    (h : r ∈ scrapeMontgomeryCourts clock testMode enrich allCases) :
    r.hasJudgement = false ∧ jsIncludes (jsToUpper r.status) "OPEN" = true := by
  unfold scrapeMontgomeryCourts at h
  dsimp only at h
  rw [mem_sortOrd] at h
  obtain ⟨t, ht, hr⟩ := List.mem_filterMap.mp h
  obtain ⟨pd, hpd, hbr⟩ := Option.map_eq_some'.mp hr
  have ht2 : t ∈ sortOrd targetBefore (montcoTargets clock allCases) := by
    split at ht
    · exact List.take_subset _ _ ht
    · exact ht
  rw [mem_sortOrd] at ht2
  unfold montcoTargets at ht2
  rw [List.mem_filter] at ht2
  obtain ⟨rc, hrc, hteq⟩ := List.mem_map.mp ht2.1
  rw [List.mem_filter] at hrc
  have hso := hrc.2
  unfold statusOpen at hso
  rw [Bool.and_eq_true] at hso
  have htraw : t.raw = rc := by
    rw [← hteq]
    rfl
  have hhj : r.hasJudgement = t.raw.hasJudgement := by
    rw [← hbr]
    rfl
  have hst : r.status = t.raw.status := by
    rw [← hbr]
    rfl
  refine ⟨?_, ?_⟩
  · rw [hhj, htraw]
    simpa using hso.2
  · rw [hst, htraw]
    exact hso.1

/-- C3 witness: the pipeline output on a concrete two-case collection (one
OPEN case without judgment, one OPEN case with judgment) contains exactly
the judgment-free record, and the theorem applies to it. -/
theorem judgement_cases_never_in_output_witness :
    c3resultw.hasJudgement = false ∧
      jsIncludes (jsToUpper c3resultw.status) "OPEN" = true :=
  judgement_cases_never_in_output c3clock false c3enrich c3raws c3resultw (by decide)

end Foreclosure
